import Mathlib

/-!
Shallow embedding of `src/core.py` of the leave/delete guard plugin:
the policy evaluator `execute_guard_action`, the remote-response
classification of `call_napcat`, and their small helpers.

Strings are Lean `String`s; Python truthiness of `Optional[str]` is made
explicit (`None` and `""` are falsy); the asynchronous remote call is
abstracted as an injected pure caller returning the tuple the Python
caller would produce, exactly as the source's `napcat_caller` parameter
allows.
-/

namespace Guard

/-- Embeds `GuardContext` (src/core.py): discriminant plus optional ids. -/
structure GuardContext where
  is_group : Bool
  group_id : Option String
  private_user_id : Option String
deriving Repr, DecidableEq

/-- Embeds `GuardPolicy` (src/core.py). The developer whitelist is kept as a
list with membership test only; `min_reason_length` is a Python `int`, hence
`Int` here, with the source's default of 4. -/
structure GuardPolicy where
  mode : String
  developer_whitelist : List String
  allow_force : Bool
  default_dry_run : Bool
  dry_run_override : Option Bool
  napcat_host : String
  napcat_port : String
  napcat_token : String
  min_reason_length : Int := 4
deriving Repr, DecidableEq

/-- Embeds `GuardResult` (src/core.py). -/
structure GuardResult where
  success : Bool
  message : String
  action_type : String
  target_id : Option String
  source : String
  executed : Bool
  dry_run : Bool
deriving Repr, DecidableEq

/-- The whitespace characters Python's `str.strip()` removes (ASCII range:
space, tab, newline, carriage return, vertical tab, form feed). -/
def pyIsSpace (c : Char) : Bool :=
  c == ' ' || c == '\t' || c == '\n' || c == '\r' || c == '\x0b' || c == '\x0c'

/-- Python's `str.strip()`: drop leading and trailing whitespace. Implemented
structurally over the character list so that it computes by reduction. -/
def pyStrip (s : String) : String :=
  ⟨((s.data.dropWhile pyIsSpace).reverse.dropWhile pyIsSpace).reverse⟩

/-- Python's `str.lower()` (on the ASCII range). -/
def pyLower (s : String) : String :=
  ⟨s.data.map Char.toLower⟩

/-- Python truthiness of an `Optional[str]`: `None` and `""` are falsy. -/
def optStrTruthy (s : Option String) : Bool :=
  match s with
  | none => false
  | some s => !(s == "")

/-- Python rendering of a `bool` inside an f-string. -/
def pyBool (b : Bool) : String :=
  if b then "True" else "False"

/-- Python rendering of an `Optional[str]` inside an f-string
(`None` prints as `None`). -/
def pyOptStr (s : Option String) : String :=
  match s with
  | none => "None"
  | some s => s

/-- Embeds `normalize_reason` (src/core.py:59-62) at type `str`:
`str(reason).strip()`. (The `None` case of the Python `Any` argument is the
empty string, which stripping also yields on `""`.) -/
def normalize_reason (reason : String) : String :=
  pyStrip reason

/-- Embeds `get_effective_dry_run` (src/core.py:65-68). -/
def get_effective_dry_run (default_dry_run : Bool) (override : Option Bool) : Bool :=
  match override with
  | none => default_dry_run
  | some b => b

/-- The body of the remote HTTP response as `call_napcat` can observe it:
not parseable as JSON, JSON but not an object, or an object carrying the
fields the source reads (`status`, `retcode`, `message`, `wording`), each
possibly missing. -/
inductive NapcatBody where
  | notJson
  | nonObject
  | object (status : Option String) (retcode : Option String)
      (message : Option String) (wording : Option String)
deriving Repr, DecidableEq

/-- The outcome of the HTTP POST in `call_napcat`: a transport timeout, a
transport error, or a response with a status code and a body. -/
inductive NapcatOutcome where
  | timeout
  | requestError (err : String)
  | http (status : Nat) (body : NapcatBody)
deriving Repr, DecidableEq

/-- The raw object `call_napcat` returns alongside its verdict, when the body
was a JSON object. -/
abbrev NapcatRaw := Option NapcatBody

/-- The `NapcatResult` tuple of src/core.py:10. -/
abbrev NapcatResult := Bool × String × Option NapcatBody

/-- `raw.get("retcode", "")` of src/core.py:105. -/
def getRetcode (retcode : Option String) : String :=
  retcode.getD ""

/-- `raw.get("message") or raw.get("wording") or "unknown"` of
src/core.py:106 (Python falsy chaining: a missing or empty field falls
through). -/
def getFailMessage (message wording : Option String) : String :=
  let m := message.getD ""
  if !(m == "") then m
  else
    let w := wording.getD ""
    if !(w == "") then w else "unknown"

/-- Embeds the response interpretation of `call_napcat`
(src/core.py:86-109): everything after the POST, as a pure function of the
observed outcome and the request url. -/
def interpret_response (outcome : NapcatOutcome) (url : String) : NapcatResult :=
  match outcome with
  | .timeout => (false, s!"请求 NapCat 超时: {url}", none)
  | .requestError exc => (false, s!"请求 NapCat 失败: {exc}", none)
  | .http status body =>
    if status = 401 ∨ status = 403 then
      (false, s!"NapCat 鉴权失败(HTTP {status})", none)
    else if status < 200 ∨ 300 ≤ status then
      (false, s!"NapCat HTTP 错误: {status}", none)
    else
      match body with
      | .notJson => (false, "NapCat 返回了非 JSON 响应", none)
      | .nonObject => (false, "NapCat 返回格式异常", none)
      | .object st retcode message wording =>
        if st ≠ some "ok" then
          (false,
            s!"NapCat 返回失败: status={pyOptStr st}, retcode={getRetcode retcode}, message={getFailMessage message wording}",
            some (.object st retcode message wording))
        else
          (true, "ok", some (.object st retcode message wording))

/-- The JSON payload shapes `execute_guard_action` builds
(src/core.py:149 and 173). -/
inductive NapcatPayload where
  | leaveGroup (group_id : String) (is_dismiss : Bool)
  | deleteFriend (user_id : String)
deriving Repr, DecidableEq

/-- The injected remote caller: the pure shape of the source's
`napcat_caller` parameter, taking the napcat action name and the payload and
returning a `NapcatResult`. (Host, port and token are fixed by the policy and
elided from the abstraction.) -/
abbrev NapcatCaller := String → NapcatPayload → NapcatResult

/-- The message of src/core.py:129. -/
def unsupported_message (action_type : String) : String :=
  s!"不支持的动作类型: {action_type}"

/-- The message of src/core.py:179. -/
def reason_reject_message (min_reason_length : Int) : String :=
  s!"审慎模式拒绝执行：reason 至少 {min_reason_length} 个字符"

/-- The message of src/core.py:192. -/
def force_disabled_message : String :=
  "当前配置禁用了 force"

/-- The message of src/core.py:202. -/
def force_whitelist_message : String :=
  "force 仅允许开发者白名单使用"

/-- The message of src/core.py:214-217; `fb` is the Python rendering of the
force flag and `shown` the normalized reason (or `"N/A"` when empty). -/
def dry_run_message (normalized_action target_id source fb shown : String) : String :=
  s!"[dry-run] 已通过校验，将执行 {normalized_action} -> {target_id}; source={source}; force={fb}; reason={shown}"

/-- The message of src/core.py:236. -/
def call_fail_message (normalized_action detail : String) : String :=
  s!"执行 {normalized_action} 失败: {detail}"

/-- The message of src/core.py:246. -/
def call_success_message (normalized_action target_id : String) : String :=
  s!"执行 {normalized_action} 成功，目标={target_id}"

/-- Embeds the mode resolution of src/core.py:124:
`(policy.mode or "cautious").strip().lower()` — the Python `or` replaces only
the empty string by the default. -/
def resolve_mode (mode : String) : String :=
  pyLower (pyStrip (if mode == "" then "cautious" else mode))

/-- Embeds the branch of src/core.py:137-174 that either rejects on a
cross-context mismatch (`none`) or resolves the napcat action name, the
payload and the target id, for a normalized action already known to be
`"leave"` or `"delete"`. -/
def resolve_branch (normalized_action : String) (context : GuardContext) :
    Option (String × NapcatPayload × String) :=
  if normalized_action = "leave" then
    if !context.is_group || !(optStrTruthy context.group_id) then none
    else
      let gid := context.group_id.getD ""
      some ("set_group_leave", .leaveGroup gid false, gid)
  else
    if context.is_group then none
    else if !(optStrTruthy context.private_user_id) then none
    else
      let uid := context.private_user_id.getD ""
      some ("delete_friend", .deleteFriend uid, uid)

/-- The rejection message of the cross-context gate (src/core.py:141, 155,
165): which of the three distinct messages applies. -/
def context_reject_message (normalized_action : String) (context : GuardContext) : String :=
  if normalized_action = "leave" then "当前不是群聊上下文，拒绝执行退群"
  else if context.is_group then "当前是群聊上下文，拒绝执行删好友"
  else "当前私聊对象缺失，拒绝执行删好友"

/-- Embeds `execute_guard_action` (src/core.py:112-252), with the remote
call injected as `caller`. -/
def execute_guard_action (action_type : String) (actor_user_id : String)
    (context : GuardContext) (force : Bool) (reason : String)
    (source : String) (policy : GuardPolicy) (caller : NapcatCaller) :
    GuardResult :=
  let normalized_action := pyLower (pyStrip action_type)
  let normalized_reason := normalize_reason reason
  let normalized_mode := resolve_mode policy.mode
  if !(normalized_action = "leave" ∨ normalized_action = "delete") then
    { success := false
      message := unsupported_message action_type
      action_type := if normalized_action == "" then action_type else normalized_action
      target_id := none
      source := source
      executed := false
      dry_run := false }
  else
    match resolve_branch normalized_action context with
    | none =>
      { success := false
        message := context_reject_message normalized_action context
        action_type := normalized_action
        target_id := none
        source := source
        executed := false
        dry_run := false }
    | some (napcat_action, payload, target_id) =>
      if normalized_mode = "cautious" ∧
          (normalized_reason.length : Int) < policy.min_reason_length then
        { success := false
          message := reason_reject_message policy.min_reason_length
          action_type := normalized_action
          target_id := some target_id
          source := source
          executed := false
          dry_run := false }
      else
        let actor := actor_user_id
        let is_whitelisted := policy.developer_whitelist.contains actor
        if force && !policy.allow_force then
          { success := false
            message := force_disabled_message
            action_type := normalized_action
            target_id := some target_id
            source := source
            executed := false
            dry_run := false }
        else if force && !is_whitelisted then
          { success := false
            message := force_whitelist_message
            action_type := normalized_action
            target_id := some target_id
            source := source
            executed := false
            dry_run := false }
        else
          let dry_run := get_effective_dry_run policy.default_dry_run policy.dry_run_override
          if dry_run then
            let shownReason := if normalized_reason == "" then "N/A" else normalized_reason
            { success := true
              message :=
                dry_run_message normalized_action target_id source (pyBool force) shownReason
              action_type := normalized_action
              target_id := some target_id
              source := source
              executed := false
              dry_run := true }
          else
            match caller napcat_action payload with
            | (ok, detail, _raw) =>
              if !ok then
                { success := false
                  message := call_fail_message normalized_action detail
                  action_type := normalized_action
                  target_id := some target_id
                  source := source
                  executed := false
                  dry_run := false }
              else
                { success := true
                  message := call_success_message normalized_action target_id
                  action_type := normalized_action
                  target_id := some target_id
                  source := source
                  executed := true
                  dry_run := false }

lemma exec_invalid_action (action_type actor_user_id : String) (context : GuardContext)
    (force : Bool) (reason source : String) (policy : GuardPolicy) (caller : NapcatCaller)
    (h : ¬(pyLower (pyStrip action_type) = "leave" ∨ pyLower (pyStrip action_type) = "delete")) :
    execute_guard_action action_type actor_user_id context force reason source policy caller =
      { success := false
        message := unsupported_message action_type
        action_type := if pyLower (pyStrip action_type) == "" then action_type
          else pyLower (pyStrip action_type)
        target_id := none
        source := source
        executed := false
        dry_run := false } := by
  simp [execute_guard_action, h]

lemma exec_ctx_reject (action_type actor_user_id : String) (context : GuardContext)
    (force : Bool) (reason source : String) (policy : GuardPolicy) (caller : NapcatCaller)
    (h1 : pyLower (pyStrip action_type) = "leave" ∨ pyLower (pyStrip action_type) = "delete")
    (h2 : resolve_branch (pyLower (pyStrip action_type)) context = none) :
    execute_guard_action action_type actor_user_id context force reason source policy caller =
      { success := false
        message := context_reject_message (pyLower (pyStrip action_type)) context
        action_type := pyLower (pyStrip action_type)
        target_id := none
        source := source
        executed := false
        dry_run := false } := by
  rcases h1 with h1 | h1 <;> simp [execute_guard_action, h1, h2] <;> simp [h1] at h2 <;> simp [h2]

lemma exec_reason_reject (action_type actor_user_id : String) (context : GuardContext)
    (force : Bool) (reason source : String) (policy : GuardPolicy) (caller : NapcatCaller)
    (a : String) (p : NapcatPayload) (t : String)
    (h1 : pyLower (pyStrip action_type) = "leave" ∨ pyLower (pyStrip action_type) = "delete")
    (h2 : resolve_branch (pyLower (pyStrip action_type)) context = some (a, p, t))
    (h3 : resolve_mode policy.mode = "cautious")
    (h4 : ((normalize_reason reason).length : Int) < policy.min_reason_length) :
    execute_guard_action action_type actor_user_id context force reason source policy caller =
      { success := false
        message := reason_reject_message policy.min_reason_length
        action_type := pyLower (pyStrip action_type)
        target_id := some t
        source := source
        executed := false
        dry_run := false } := by
  rcases h1 with h1 | h1 <;> simp [h1] at h2 <;> simp [execute_guard_action, h1, h2, h3, h4]

lemma exec_force_disabled (action_type actor_user_id : String) (context : GuardContext)
    (reason source : String) (policy : GuardPolicy) (caller : NapcatCaller)
    (a : String) (p : NapcatPayload) (t : String)
    (h1 : pyLower (pyStrip action_type) = "leave" ∨ pyLower (pyStrip action_type) = "delete")
    (h2 : resolve_branch (pyLower (pyStrip action_type)) context = some (a, p, t))
    (h5 : ¬(resolve_mode policy.mode = "cautious" ∧
      ((normalize_reason reason).length : Int) < policy.min_reason_length))
    (h7 : policy.allow_force = false) :
    execute_guard_action action_type actor_user_id context true reason source policy caller =
      { success := false
        message := force_disabled_message
        action_type := pyLower (pyStrip action_type)
        target_id := some t
        source := source
        executed := false
        dry_run := false } := by
  rcases h1 with h1 | h1 <;> simp [h1] at h2 <;> simp [execute_guard_action, h1, h2, h5, h7]

lemma exec_force_not_whitelisted (action_type actor_user_id : String) (context : GuardContext)
    (reason source : String) (policy : GuardPolicy) (caller : NapcatCaller)
    (a : String) (p : NapcatPayload) (t : String)
    (h1 : pyLower (pyStrip action_type) = "leave" ∨ pyLower (pyStrip action_type) = "delete")
    (h2 : resolve_branch (pyLower (pyStrip action_type)) context = some (a, p, t))
    (h5 : ¬(resolve_mode policy.mode = "cautious" ∧
      ((normalize_reason reason).length : Int) < policy.min_reason_length))
    (h7 : policy.allow_force = true)
    (h8 : actor_user_id ∉ policy.developer_whitelist) :
    execute_guard_action action_type actor_user_id context true reason source policy caller =
      { success := false
        message := force_whitelist_message
        action_type := pyLower (pyStrip action_type)
        target_id := some t
        source := source
        executed := false
        dry_run := false } := by
  rcases h1 with h1 | h1 <;> simp [h1] at h2 <;> simp_all [execute_guard_action]

lemma exec_dry_run (action_type actor_user_id : String) (context : GuardContext)
    (force : Bool) (reason source : String) (policy : GuardPolicy) (caller : NapcatCaller)
    (a : String) (p : NapcatPayload) (t : String)
    (h1 : pyLower (pyStrip action_type) = "leave" ∨ pyLower (pyStrip action_type) = "delete")
    (h2 : resolve_branch (pyLower (pyStrip action_type)) context = some (a, p, t))
    (h5 : ¬(resolve_mode policy.mode = "cautious" ∧
      ((normalize_reason reason).length : Int) < policy.min_reason_length))
    (hf1 : (force && !policy.allow_force) = false)
    (hf2 : (force && !(policy.developer_whitelist.contains actor_user_id)) = false)
    (hd : get_effective_dry_run policy.default_dry_run policy.dry_run_override = true) :
    execute_guard_action action_type actor_user_id context force reason source policy caller =
      { success := true
        message := dry_run_message (pyLower (pyStrip action_type)) t source (pyBool force)
          (if normalize_reason reason == "" then "N/A" else normalize_reason reason)
        action_type := pyLower (pyStrip action_type)
        target_id := some t
        source := source
        executed := false
        dry_run := true } := by
  rcases h1 with h1 | h1 <;> simp [h1] at h2 <;> cases force <;> simp_all [execute_guard_action]

lemma exec_call (action_type actor_user_id : String) (context : GuardContext)
    (force : Bool) (reason source : String) (policy : GuardPolicy) (caller : NapcatCaller)
    (a : String) (p : NapcatPayload) (t : String) (ok : Bool) (detail : String)
    (raw : Option NapcatBody)
    (h1 : pyLower (pyStrip action_type) = "leave" ∨ pyLower (pyStrip action_type) = "delete")
    (h2 : resolve_branch (pyLower (pyStrip action_type)) context = some (a, p, t))
    (h5 : ¬(resolve_mode policy.mode = "cautious" ∧
      ((normalize_reason reason).length : Int) < policy.min_reason_length))
    (hf1 : (force && !policy.allow_force) = false)
    (hf2 : (force && !(policy.developer_whitelist.contains actor_user_id)) = false)
    (hd : get_effective_dry_run policy.default_dry_run policy.dry_run_override = false)
    (hc : caller a p = (ok, detail, raw)) :
    execute_guard_action action_type actor_user_id context force reason source policy caller =
      if ok then
        { success := true
          message := call_success_message (pyLower (pyStrip action_type)) t
          action_type := pyLower (pyStrip action_type)
          target_id := some t
          source := source
          executed := true
          dry_run := false }
      else
        { success := false
          message := call_fail_message (pyLower (pyStrip action_type)) detail
          action_type := pyLower (pyStrip action_type)
          target_id := some t
          source := source
          executed := false
          dry_run := false } := by
  rcases h1 with h1 | h1 <;> simp [h1] at h2 <;> cases force <;> cases ok <;>
    simp_all [execute_guard_action]

lemma resolve_branch_leave_none (context : GuardContext)
    (h : context.is_group = false ∨ optStrTruthy context.group_id = false) :
    resolve_branch "leave" context = none := by
  rcases h with h | h <;> simp [resolve_branch, h]

lemma resolve_branch_leave_some (context : GuardContext) (gid : String)
    (hg : context.is_group = true) (hid : context.group_id = some gid) (hne : gid ≠ "") :
    resolve_branch "leave" context = some ("set_group_leave", .leaveGroup gid false, gid) := by
  simp [resolve_branch, hg, hid, optStrTruthy, hne]

lemma resolve_branch_delete_none (context : GuardContext)
    (h : context.is_group = true ∨ optStrTruthy context.private_user_id = false) :
    resolve_branch "delete" context = none := by
  rcases h with h | h <;> simp [resolve_branch, h]

lemma resolve_branch_delete_some (context : GuardContext) (uid : String)
    (hg : context.is_group = false) (hid : context.private_user_id = some uid) (hne : uid ≠ "") :
    resolve_branch "delete" context = some ("delete_friend", .deleteFriend uid, uid) := by
  simp [resolve_branch, hg, hid, optStrTruthy, hne]

lemma exec_failure_flags (action_type actor_user_id : String) (context : GuardContext)
    (force : Bool) (reason source : String) (policy : GuardPolicy) (caller : NapcatCaller) :
    (execute_guard_action action_type actor_user_id context force reason source policy
        caller).success = false →
    (execute_guard_action action_type actor_user_id context force reason source policy
        caller).executed = false ∧
    (execute_guard_action action_type actor_user_id context force reason source policy
        caller).dry_run = false := by
  unfold execute_guard_action
  repeat' split <;> intros <;> first | rfl | trivial | simp_all

lemma exec_executed_true (action_type actor_user_id : String) (context : GuardContext)
    (force : Bool) (reason source : String) (policy : GuardPolicy) (caller : NapcatCaller) :
    (execute_guard_action action_type actor_user_id context force reason source policy
        caller).executed = true →
    (execute_guard_action action_type actor_user_id context force reason source policy
        caller).success = true ∧
    (execute_guard_action action_type actor_user_id context force reason source policy
        caller).dry_run = false ∧
    get_effective_dry_run policy.default_dry_run policy.dry_run_override = false ∧
    ∃ a p t, resolve_branch (pyLower (pyStrip action_type)) context = some (a, p, t) ∧
      (caller a p).1 = true := by
  unfold execute_guard_action
  repeat' split <;> (try simp_all)
  exact ⟨_, _, ⟨rfl, rfl⟩, by assumption⟩

lemma ne_of_head_ne (s t : String) (h : s.data.head? ≠ t.data.head?) : s ≠ t := by
  intro he
  exact h (by rw [he])

lemma reason_reject_message_head (m : Int) :
    (reason_reject_message m).data.head? = some '审' := by
  simp [reason_reject_message, String.data_append, instToStringString]

lemma call_fail_message_head (na d : String) :
    (call_fail_message na d).data.head? = some '执' := by
  simp [call_fail_message, String.data_append, instToStringString]

lemma reason_ne_force_disabled (m : Int) :
    reason_reject_message m ≠ force_disabled_message := by
  apply ne_of_head_ne
  rw [reason_reject_message_head]
  decide

lemma reason_ne_force_whitelist (m : Int) :
    reason_reject_message m ≠ force_whitelist_message := by
  apply ne_of_head_ne
  rw [reason_reject_message_head]
  decide

lemma reason_ne_call_fail (m : Int) (na d : String) :
    reason_reject_message m ≠ call_fail_message na d := by
  apply ne_of_head_ne
  rw [reason_reject_message_head, call_fail_message_head]
  decide

/-- A concrete policy used to instantiate universally quantified theorems on
sample inputs. -/
def samplePolicy : GuardPolicy :=
  { mode := "normal"
    developer_whitelist := ["dev"]
    allow_force := true
    default_dry_run := true
    dry_run_override := none
    napcat_host := "h"
    napcat_port := "3000"
    napcat_token := "tok" }

/-- A concrete remote caller that always reports a transport failure. -/
def sampleCaller : NapcatCaller := fun _ _ => (false, "down", none)

/-- C1: a "leave" request whose context is not a group (or has an
empty/missing group id) always rejects; a "delete" request in a group context
always rejects; and the two "delete" rejections (group context vs missing
private target) carry distinct messages. All other fields (actor, force,
reason, policy, caller) are universally quantified, so the rejections hold
regardless of them. -/
theorem claim_C1 (action_type actor_user_id : String) (context : GuardContext)
    (force : Bool) (reason source : String) (policy : GuardPolicy) (caller : NapcatCaller) :
    (pyLower (pyStrip action_type) = "leave" →
      context.is_group = false ∨ optStrTruthy context.group_id = false →
      (execute_guard_action action_type actor_user_id context force reason source policy
          caller).success = false ∧
      (execute_guard_action action_type actor_user_id context force reason source policy
          caller).executed = false ∧
      (execute_guard_action action_type actor_user_id context force reason source policy
          caller).message = "当前不是群聊上下文，拒绝执行退群") ∧
    (pyLower (pyStrip action_type) = "delete" → context.is_group = true →
      (execute_guard_action action_type actor_user_id context force reason source policy
          caller).success = false ∧
      (execute_guard_action action_type actor_user_id context force reason source policy
          caller).executed = false ∧
      (execute_guard_action action_type actor_user_id context force reason source policy
          caller).message = "当前是群聊上下文，拒绝执行删好友") ∧
    (pyLower (pyStrip action_type) = "delete" → context.is_group = false →
      optStrTruthy context.private_user_id = false →
      (execute_guard_action action_type actor_user_id context force reason source policy
          caller).success = false ∧
      (execute_guard_action action_type actor_user_id context force reason source policy
          caller).executed = false ∧
      (execute_guard_action action_type actor_user_id context force reason source policy
          caller).message = "当前私聊对象缺失，拒绝执行删好友") ∧
    ("当前是群聊上下文，拒绝执行删好友" : String) ≠ "当前私聊对象缺失，拒绝执行删好友" := by
  refine ⟨?_, ?_, ?_, by decide⟩
  · intro hna hctx
    rw [exec_ctx_reject _ _ _ _ _ _ _ _ (Or.inl hna)
      (by rw [hna]; exact resolve_branch_leave_none _ hctx)]
    simp [context_reject_message, hna]
  · intro hna hg
    rw [exec_ctx_reject _ _ _ _ _ _ _ _ (Or.inr hna)
      (by rw [hna]; exact resolve_branch_delete_none _ (Or.inl hg))]
    simp [context_reject_message, hna, hg]
  · intro hna hg hu
    rw [exec_ctx_reject _ _ _ _ _ _ _ _ (Or.inr hna)
      (by rw [hna]; exact resolve_branch_delete_none _ (Or.inr hu))]
    simp [context_reject_message, hna, hg]

/-- Witness for C1 at concrete inputs: a "delete" in a group context rejects,
and a "leave" in a private context rejects with the not-a-group message. -/
theorem claim_C1_witness :
    (execute_guard_action "delete" "a" ⟨true, some "g", none⟩ false "r" "s"
        samplePolicy sampleCaller).success = false ∧
    (execute_guard_action "leave" "a" ⟨false, none, some "u"⟩ false "r" "s"
        samplePolicy sampleCaller).message = "当前不是群聊上下文，拒绝执行退群" :=
  ⟨((claim_C1 "delete" "a" ⟨true, some "g", none⟩ false "r" "s" samplePolicy
      sampleCaller).2.1 (by decide) rfl).1,
   ((claim_C1 "leave" "a" ⟨false, none, some "u"⟩ false "r" "s" samplePolicy
      sampleCaller).1 (by decide) (Or.inl rfl)).2.2⟩

/-- C2: the evaluator is a total function (it returns exactly one
`GuardResult` by construction of the embedding and can signal no exception),
and whenever any of gates 1-5 rejects — unsupported action type,
cross-context mismatch or missing target, cautious-mode reason too short, or
the two force gates — the result carries `success=false`, `executed=false`
and `dryRun=false`. -/
theorem claim_C2 (action_type actor_user_id : String) (context : GuardContext)
    (force : Bool) (reason source : String) (policy : GuardPolicy) (caller : NapcatCaller)
    (h : ¬(pyLower (pyStrip action_type) = "leave" ∨ pyLower (pyStrip action_type) = "delete") ∨
      (pyLower (pyStrip action_type) = "leave" ∧
        (context.is_group = false ∨ optStrTruthy context.group_id = false)) ∨
      (pyLower (pyStrip action_type) = "delete" ∧
        (context.is_group = true ∨ optStrTruthy context.private_user_id = false)) ∨
      (resolve_mode policy.mode = "cautious" ∧
        ((normalize_reason reason).length : Int) < policy.min_reason_length) ∨
      (force = true ∧ (policy.allow_force = false ∨
        actor_user_id ∉ policy.developer_whitelist))) :
    (execute_guard_action action_type actor_user_id context force reason source policy
        caller).success = false ∧
    (execute_guard_action action_type actor_user_id context force reason source policy
        caller).executed = false ∧
    (execute_guard_action action_type actor_user_id context force reason source policy
        caller).dry_run = false := by
  by_cases hg1 : (pyLower (pyStrip action_type) = "leave" ∨ pyLower (pyStrip action_type) = "delete")
  · cases hbr : resolve_branch (pyLower (pyStrip action_type)) context with
    | none =>
      rw [exec_ctx_reject _ _ _ _ _ _ _ _ hg1 hbr]
      exact ⟨rfl, rfl, rfl⟩
    | some x =>
      obtain ⟨a, p, t⟩ := x
      by_cases h4 : (resolve_mode policy.mode = "cautious" ∧
          ((normalize_reason reason).length : Int) < policy.min_reason_length)
      · rw [exec_reason_reject _ _ _ _ _ _ _ _ _ _ _ hg1 hbr h4.1 h4.2]
        exact ⟨rfl, rfl, rfl⟩
      · have hforce : force = true ∧ (policy.allow_force = false ∨
            actor_user_id ∉ policy.developer_whitelist) := by
          rcases h with h | h | h | h | h
          · exact absurd hg1 h
          · exfalso
            have h0 := resolve_branch_leave_none context h.2
            rw [h.1, h0] at hbr
            simp at hbr
          · exfalso
            have h0 := resolve_branch_delete_none context h.2
            rw [h.1, h0] at hbr
            simp at hbr
          · exact absurd h h4
          · exact h
        obtain ⟨hf, hcase⟩ := hforce
        subst hf
        by_cases hall : policy.allow_force = false
        · rw [exec_force_disabled _ _ _ _ _ _ _ _ _ _ hg1 hbr h4 hall]
          exact ⟨rfl, rfl, rfl⟩
        · have hall' : policy.allow_force = true := by
            revert hall; cases policy.allow_force <;> simp
          have hwl : actor_user_id ∉ policy.developer_whitelist := by
            rcases hcase with hc | hc
            · exact absurd hc hall
            · exact hc
          rw [exec_force_not_whitelisted _ _ _ _ _ _ _ _ _ _ hg1 hbr h4 hall' hwl]
          exact ⟨rfl, rfl, rfl⟩
  · rw [exec_invalid_action _ _ _ _ _ _ _ _ hg1]
    exact ⟨rfl, rfl, rfl⟩

/-- Witness for C2 at a concrete input: an unsupported action type rejects
with all three flags false. -/
theorem claim_C2_witness :
    (execute_guard_action "noop" "a" ⟨true, some "g", none⟩ false "r" "s"
        samplePolicy sampleCaller).success = false ∧
    (execute_guard_action "noop" "a" ⟨true, some "g", none⟩ false "r" "s"
        samplePolicy sampleCaller).executed = false ∧
    (execute_guard_action "noop" "a" ⟨true, some "g", none⟩ false "r" "s"
        samplePolicy sampleCaller).dry_run = false :=
  claim_C2 "noop" "a" ⟨true, some "g", none⟩ false "r" "s" samplePolicy sampleCaller
    (Or.inl (by decide))

/-- A concrete policy whose mode is the invalid non-empty string "strict". -/
def strictModePolicy : GuardPolicy :=
  { samplePolicy with mode := "strict" }

/-- A concrete policy in cautious mode with real execution (no dry-run). -/
def cautiousPolicy : GuardPolicy :=
  { samplePolicy with mode := "cautious", default_dry_run := false }

/-- Counterexample to C3: the mode "strict" is non-empty and invalid, yet the
evaluator does not treat it as "cautious" — an otherwise valid "delete" with
an empty reason sails through the reason-length gate (here into a successful
dry-run), where the claim says the gate would be enforced. -/
theorem claim_C3_counterexample :
    ("strict" : String) ≠ "" ∧
    pyLower (pyStrip "strict") = "strict" ∧
    ("strict" : String) ≠ "cautious" ∧ ("strict" : String) ≠ "normal" ∧
    resolve_mode "strict" ≠ "cautious" ∧
    strictModePolicy.min_reason_length = 4 ∧
    ((normalize_reason "").length : Int) < 4 ∧
    (execute_guard_action "delete" "a" ⟨false, none, some "u1"⟩ false "" "src"
        strictModePolicy sampleCaller).success = true ∧
    (execute_guard_action "delete" "a" ⟨false, none, some "u1"⟩ false "" "src"
        strictModePolicy sampleCaller).message ≠ reason_reject_message 4 := by
  decide

/-- C3 (amended): the evaluator defaults only an *empty* mode to "cautious"
and otherwise just trims and lowercases it; a non-empty mode whose
normalization is not the literal "cautious" — including invalid strings —
is not treated as "cautious", so the reason-length gate of step 4 is not
enforced for it (any reason, even empty, passes that gate). -/
theorem claim_C3 (action_type actor_user_id : String) (context : GuardContext)
    (reason source : String) (policy : GuardPolicy) (caller : NapcatCaller)
    (a : String) (p : NapcatPayload) (t : String)
    (hne : policy.mode ≠ "")
    (hnc : pyLower (pyStrip policy.mode) ≠ "cautious")
    (h1 : pyLower (pyStrip action_type) = "leave" ∨ pyLower (pyStrip action_type) = "delete")
    (h2 : resolve_branch (pyLower (pyStrip action_type)) context = some (a, p, t))
    (hd : get_effective_dry_run policy.default_dry_run policy.dry_run_override = true) :
    resolve_mode "" = "cautious" ∧
    resolve_mode policy.mode = pyLower (pyStrip policy.mode) ∧
    (execute_guard_action action_type actor_user_id context false reason source policy
        caller).success = true := by
  have hm : resolve_mode policy.mode = pyLower (pyStrip policy.mode) := by
    simp [resolve_mode, hne]
  have h5 : ¬(resolve_mode policy.mode = "cautious" ∧
      ((normalize_reason reason).length : Int) < policy.min_reason_length) :=
    fun hc => hnc (hm ▸ hc.1)
  refine ⟨by decide, hm, ?_⟩
  rw [exec_dry_run _ _ _ _ _ _ _ _ a p t h1 h2 h5 (by simp) (by simp) hd]

/-- Witness for C3 (amended) at the concrete mode "strict": the empty mode
resolves to "cautious", "strict" resolves to itself, and the delete request
with an empty reason succeeds as a dry-run. -/
theorem claim_C3_witness :
    resolve_mode "" = "cautious" ∧
    resolve_mode strictModePolicy.mode = pyLower (pyStrip strictModePolicy.mode) ∧
    (execute_guard_action "delete" "a" ⟨false, none, some "u1"⟩ false "" "src"
        strictModePolicy sampleCaller).success = true :=
  claim_C3 "delete" "a" ⟨false, none, some "u1"⟩ "" "src" strictModePolicy sampleCaller
    "delete_friend" (.deleteFriend "u1") "u1"
    (by decide) (by decide) (Or.inr (by decide)) (by decide) (by decide)

/-- C4: given the action-type and cross-context gates pass, the evaluator
returns exactly the reason-length rejection (success=false, the
minimum-reason-length message, the resolved target) iff the resolved mode is
"cautious" and the normalized reason is shorter than `minReasonLength`; in
particular a reason of length 0 passes the gate whenever the resolved mode is
not "cautious" (e.g. "normal"). -/
theorem claim_C4 (action_type actor_user_id : String) (context : GuardContext)
    (force : Bool) (reason source : String) (policy : GuardPolicy) (caller : NapcatCaller)
    (a : String) (p : NapcatPayload) (t : String)
    (h1 : pyLower (pyStrip action_type) = "leave" ∨ pyLower (pyStrip action_type) = "delete")
    (h2 : resolve_branch (pyLower (pyStrip action_type)) context = some (a, p, t)) :
    (execute_guard_action action_type actor_user_id context force reason source policy caller =
      { success := false
        message := reason_reject_message policy.min_reason_length
        action_type := pyLower (pyStrip action_type)
        target_id := some t
        source := source
        executed := false
        dry_run := false }) ↔
    (resolve_mode policy.mode = "cautious" ∧
      ((normalize_reason reason).length : Int) < policy.min_reason_length) := by
  constructor
  · intro he
    by_contra hc
    by_cases hfd : force = true ∧ policy.allow_force = false
    · obtain ⟨hf, hal⟩ := hfd
      subst hf
      rw [exec_force_disabled _ _ _ _ _ _ _ _ _ _ h1 h2 hc hal] at he
      exact (reason_ne_force_disabled policy.min_reason_length)
        (congrArg GuardResult.message he).symm
    · by_cases hfw : force = true ∧ actor_user_id ∉ policy.developer_whitelist
      · obtain ⟨hf, hw⟩ := hfw
        subst hf
        have hall' : policy.allow_force = true := by
          cases hba : policy.allow_force with
          | false => exact absurd ⟨rfl, hba⟩ hfd
          | true => rfl
        rw [exec_force_not_whitelisted _ _ _ _ _ _ _ _ _ _ h1 h2 hc hall' hw] at he
        exact (reason_ne_force_whitelist policy.min_reason_length)
          (congrArg GuardResult.message he).symm
      · have hf1 : (force && !policy.allow_force) = false := by
          cases hfo : force with
          | false => rfl
          | true =>
            cases hba : policy.allow_force with
            | false => exact absurd ⟨hfo, hba⟩ hfd
            | true => simp [hba]
        have hf2 : (force && !(policy.developer_whitelist.contains actor_user_id)) = false := by
          cases hfo : force with
          | false => rfl
          | true =>
            have hmem : actor_user_id ∈ policy.developer_whitelist := by
              by_contra hnm
              exact hfw ⟨hfo, hnm⟩
            simp [hmem]
        cases hd : get_effective_dry_run policy.default_dry_run policy.dry_run_override with
        | true =>
          rw [exec_dry_run _ _ _ _ _ _ _ _ a p t h1 h2 hc hf1 hf2 hd] at he
          exact Bool.noConfusion (congrArg GuardResult.success he)
        | false =>
          rcases hcall : caller a p with ⟨ok, detail, raw⟩
          rw [exec_call _ _ _ _ _ _ _ _ a p t ok detail raw h1 h2 hc hf1 hf2 hd hcall] at he
          cases ok with
          | true => exact Bool.noConfusion (congrArg GuardResult.success he)
          | false =>
            exact (reason_ne_call_fail policy.min_reason_length
              (pyLower (pyStrip action_type)) detail) (congrArg GuardResult.message he).symm
  · intro hcond
    exact exec_reason_reject _ _ _ _ _ _ _ _ a p t h1 h2 hcond.1 hcond.2

/-- Witness for C4: Scenario B — a cautious-mode "delete" with an empty
reason is rejected with the minimum-reason-length message and the resolved
target; and in "normal" mode the same empty-reason request is *not* the
reason rejection. -/
theorem claim_C4_witness :
    (execute_guard_action "delete" "a" ⟨false, none, some "u1"⟩ false "" "cmd"
        cautiousPolicy sampleCaller =
      { success := false
        message := reason_reject_message 4
        action_type := "delete"
        target_id := some "u1"
        source := "cmd"
        executed := false
        dry_run := false }) ∧
    ¬(execute_guard_action "delete" "a" ⟨false, none, some "u1"⟩ false "" "cmd"
        samplePolicy sampleCaller =
      { success := false
        message := reason_reject_message 4
        action_type := "delete"
        target_id := some "u1"
        source := "cmd"
        executed := false
        dry_run := false }) :=
  ⟨(claim_C4 "delete" "a" ⟨false, none, some "u1"⟩ false "" "cmd" cautiousPolicy
      sampleCaller "delete_friend" (.deleteFriend "u1") "u1" (Or.inr (by decide))
      (by decide)).mpr ⟨by decide, by decide⟩,
   fun he =>
    by
      have := (claim_C4 "delete" "a" ⟨false, none, some "u1"⟩ false "" "cmd" samplePolicy
        sampleCaller "delete_friend" (.deleteFriend "u1") "u1" (Or.inr (by decide))
        (by decide)).mp he
      exact absurd this.1 (by decide)⟩

/-- A concrete policy with force disabled. -/
def noForcePolicy : GuardPolicy :=
  { samplePolicy with allow_force := false }

/-- C5: once the earlier gates pass, a forced request against
`allowForce=false` is rejected with the force-disabled message no matter
whether the actor is whitelisted (the whitelist is universally quantified
here), while a forced request with `allowForce=true` by a non-whitelisted
actor is rejected with the whitelist-only message; the two messages are
distinct, so disabled-force precedence is observable. -/
theorem claim_C5 (action_type actor_user_id : String) (context : GuardContext)
    (reason source : String) (policy : GuardPolicy) (caller : NapcatCaller)
    (a : String) (p : NapcatPayload) (t : String)
    (h1 : pyLower (pyStrip action_type) = "leave" ∨ pyLower (pyStrip action_type) = "delete")
    (h2 : resolve_branch (pyLower (pyStrip action_type)) context = some (a, p, t))
    (h5 : ¬(resolve_mode policy.mode = "cautious" ∧
      ((normalize_reason reason).length : Int) < policy.min_reason_length)) :
    (policy.allow_force = false →
      execute_guard_action action_type actor_user_id context true reason source policy caller =
        { success := false
          message := force_disabled_message
          action_type := pyLower (pyStrip action_type)
          target_id := some t
          source := source
          executed := false
          dry_run := false }) ∧
    (policy.allow_force = true → actor_user_id ∉ policy.developer_whitelist →
      execute_guard_action action_type actor_user_id context true reason source policy caller =
        { success := false
          message := force_whitelist_message
          action_type := pyLower (pyStrip action_type)
          target_id := some t
          source := source
          executed := false
          dry_run := false }) ∧
    force_disabled_message ≠ force_whitelist_message := by
  refine ⟨?_, ?_, by decide⟩
  · intro hal
    exact exec_force_disabled _ _ _ _ _ _ _ _ _ _ h1 h2 h5 hal
  · intro hal hwl
    exact exec_force_not_whitelisted _ _ _ _ _ _ _ _ _ _ h1 h2 h5 hal hwl

/-- Witness for C5: with force disabled even the whitelisted actor "dev" gets
the force-disabled message, and with force allowed the non-whitelisted actor
"x" gets the whitelist-only message. -/
theorem claim_C5_witness :
    (execute_guard_action "leave" "dev" ⟨true, some "123", none⟩ true "longreason" "s"
        noForcePolicy sampleCaller).message = force_disabled_message ∧
    (execute_guard_action "leave" "x" ⟨true, some "123", none⟩ true "longreason" "s"
        samplePolicy sampleCaller).message = force_whitelist_message :=
  ⟨congrArg GuardResult.message
    ((claim_C5 "leave" "dev" ⟨true, some "123", none⟩ "longreason" "s" noForcePolicy
      sampleCaller "set_group_leave" (.leaveGroup "123" false) "123" (Or.inl (by decide))
      (by decide) (by decide)).1 rfl),
   congrArg GuardResult.message
    ((claim_C5 "leave" "x" ⟨true, some "123", none⟩ "longreason" "s" samplePolicy
      sampleCaller "set_group_leave" (.leaveGroup "123" false) "123" (Or.inl (by decide))
      (by decide) (by decide)).2.1 rfl (by decide))⟩

/-- C6: the effective dry-run flag is `dryRunOverride` whenever the override
is present (for both boolean values) and `defaultDryRun` otherwise; and when
it is true and all gates pass, the evaluator returns success=true,
executed=false, dryRun=true with the resolved target. -/
theorem claim_C6 (action_type actor_user_id : String) (context : GuardContext)
    (force : Bool) (reason source : String) (policy : GuardPolicy) (caller : NapcatCaller)
    (a : String) (p : NapcatPayload) (t : String) (d b : Bool) :
    get_effective_dry_run d (some b) = b ∧
    get_effective_dry_run d none = d ∧
    ((pyLower (pyStrip action_type) = "leave" ∨ pyLower (pyStrip action_type) = "delete") →
      resolve_branch (pyLower (pyStrip action_type)) context = some (a, p, t) →
      ¬(resolve_mode policy.mode = "cautious" ∧
        ((normalize_reason reason).length : Int) < policy.min_reason_length) →
      (force && !policy.allow_force) = false →
      (force && !(policy.developer_whitelist.contains actor_user_id)) = false →
      get_effective_dry_run policy.default_dry_run policy.dry_run_override = true →
      (execute_guard_action action_type actor_user_id context force reason source policy
          caller).success = true ∧
      (execute_guard_action action_type actor_user_id context force reason source policy
          caller).executed = false ∧
      (execute_guard_action action_type actor_user_id context force reason source policy
          caller).dry_run = true ∧
      (execute_guard_action action_type actor_user_id context force reason source policy
          caller).target_id = some t) := by
  refine ⟨rfl, rfl, fun h1 h2 h5 hf1 hf2 hd => ?_⟩
  rw [exec_dry_run _ _ _ _ _ _ _ _ a p t h1 h2 h5 hf1 hf2 hd]
  exact ⟨rfl, rfl, rfl, rfl⟩

/-- Witness for C6: Scenario A — a "leave" for group "123" in normal mode
with `defaultDryRun=true` and no override yields success, not executed,
dry-run, target "123"; and a present override wins for both values. -/
theorem claim_C6_witness :
    (execute_guard_action "leave" "a" ⟨true, some "123", none⟩ false "r" "planner"
        samplePolicy sampleCaller).success = true ∧
    (execute_guard_action "leave" "a" ⟨true, some "123", none⟩ false "r" "planner"
        samplePolicy sampleCaller).executed = false ∧
    (execute_guard_action "leave" "a" ⟨true, some "123", none⟩ false "r" "planner"
        samplePolicy sampleCaller).dry_run = true ∧
    (execute_guard_action "leave" "a" ⟨true, some "123", none⟩ false "r" "planner"
        samplePolicy sampleCaller).target_id = some "123" ∧
    get_effective_dry_run true (some false) = false ∧
    get_effective_dry_run false (some true) = true := by
  have h := claim_C6 "leave" "a" ⟨true, some "123", none⟩ false "r" "planner"
    samplePolicy sampleCaller "set_group_leave" (.leaveGroup "123" false) "123" true false
  have h2 := claim_C6 "leave" "a" ⟨true, some "123", none⟩ false "r" "planner"
    samplePolicy sampleCaller "set_group_leave" (.leaveGroup "123" false) "123" false true
  obtain ⟨ha, hb, hc, hd⟩ := h.2.2 (Or.inl (by decide)) (by decide) (by decide)
    (by decide) (by decide) (by decide)
  exact ⟨ha, hb, hc, hd, h.1, h2.1⟩

/-- Counterexample to C7: the invalid action type "LEAVE! " is rejected, but
the result's actionType field is the trimmed lowercased form "leave!", not
the original input echoed back. -/
theorem claim_C7_counterexample :
    ¬(pyLower (pyStrip "LEAVE! ") = "leave" ∨ pyLower (pyStrip "LEAVE! ") = "delete") ∧
    (execute_guard_action "LEAVE! " "a" ⟨true, some "123", none⟩ false "r" "cmd"
        samplePolicy sampleCaller).success = false ∧
    (execute_guard_action "LEAVE! " "a" ⟨true, some "123", none⟩ false "r" "cmd"
        samplePolicy sampleCaller).action_type = "leave!" ∧
    ("leave!" : String) ≠ "LEAVE! " := by
  decide

/-- C7 (amended): an action type that does not normalize to "leave" or
"delete" is rejected with the unsupported-action message and
`targetId=null`, and the result's actionType field is the *normalized*
(trimmed, lowercased) input when that is non-empty, falling back to the
original input only when normalization yields the empty string. -/
theorem claim_C7 (action_type actor_user_id : String) (context : GuardContext)
    (force : Bool) (reason source : String) (policy : GuardPolicy) (caller : NapcatCaller)
    (h : ¬(pyLower (pyStrip action_type) = "leave" ∨ pyLower (pyStrip action_type) = "delete")) :
    (execute_guard_action action_type actor_user_id context force reason source policy
        caller).success = false ∧
    (execute_guard_action action_type actor_user_id context force reason source policy
        caller).target_id = none ∧
    (execute_guard_action action_type actor_user_id context force reason source policy
        caller).message = unsupported_message action_type ∧
    (execute_guard_action action_type actor_user_id context force reason source policy
        caller).action_type =
      (if pyLower (pyStrip action_type) == "" then action_type
       else pyLower (pyStrip action_type)) := by
  rw [exec_invalid_action _ _ _ _ _ _ _ _ h]
  exact ⟨rfl, rfl, rfl, rfl⟩

/-- Witness for C7 (amended) at the concrete invalid inputs "LEAVE! "
(non-empty normalization) and "  " (empty normalization). -/
theorem claim_C7_witness :
    (execute_guard_action "LEAVE! " "a" ⟨true, some "123", none⟩ false "r" "cmd"
        samplePolicy sampleCaller).action_type = "leave!" ∧
    (execute_guard_action "  " "a" ⟨true, some "123", none⟩ false "r" "cmd"
        samplePolicy sampleCaller).action_type = "  " ∧
    (execute_guard_action "LEAVE! " "a" ⟨true, some "123", none⟩ false "r" "cmd"
        samplePolicy sampleCaller).target_id = none := by
  have h1 := claim_C7 "LEAVE! " "a" ⟨true, some "123", none⟩ false "r" "cmd"
    samplePolicy sampleCaller (by decide)
  have h2 := claim_C7 "  " "a" ⟨true, some "123", none⟩ false "r" "cmd"
    samplePolicy sampleCaller (by decide)
  refine ⟨?_, ?_, h1.2.1⟩
  · rw [h1.2.2.2]; decide
  · rw [h2.2.2.2]; decide

/-- A concrete caller that reports what `call_napcat` reports on an HTTP 403
response. -/
def authFailCaller : NapcatCaller :=
  fun _ _ => interpret_response (.http 403 .notJson) "http://h:3000/set_group_leave"

/-- A concrete caller that reports what `call_napcat` reports on an HTTP 200
response whose JSON object has `status="ok"`. -/
def okStatusCaller : NapcatCaller :=
  fun _ _ => interpret_response (.http 200 (.object (some "ok") none none none))
    "http://h:3000/set_group_leave"

/-- C8: an HTTP status of 401 or 403 is classified as an authentication
failure — regardless of the body, so before the generic non-2xx check — as
`(false, auth-message(status), none)`; and the evaluator wraps any failing
caller result into a `GuardResult` with success=false and executed=false. -/
theorem claim_C8 (status : Nat) (body : NapcatBody) (url : String)
    (action_type actor_user_id : String) (context : GuardContext) (force : Bool)
    (reason source : String) (policy : GuardPolicy) (caller : NapcatCaller)
    (a : String) (p : NapcatPayload) (t : String) (detail : String)
    (raw : Option NapcatBody) :
    (status = 401 ∨ status = 403 →
      interpret_response (.http status body) url =
        (false, s!"NapCat 鉴权失败(HTTP {status})", none)) ∧
    ((pyLower (pyStrip action_type) = "leave" ∨ pyLower (pyStrip action_type) = "delete") →
      resolve_branch (pyLower (pyStrip action_type)) context = some (a, p, t) →
      ¬(resolve_mode policy.mode = "cautious" ∧
        ((normalize_reason reason).length : Int) < policy.min_reason_length) →
      (force && !policy.allow_force) = false →
      (force && !(policy.developer_whitelist.contains actor_user_id)) = false →
      get_effective_dry_run policy.default_dry_run policy.dry_run_override = false →
      caller a p = (false, detail, raw) →
      (execute_guard_action action_type actor_user_id context force reason source policy
          caller).success = false ∧
      (execute_guard_action action_type actor_user_id context force reason source policy
          caller).executed = false ∧
      (execute_guard_action action_type actor_user_id context force reason source policy
          caller).message = call_fail_message (pyLower (pyStrip action_type)) detail) := by
  constructor
  · rintro (rfl | rfl) <;> simp [interpret_response]
  · intro h1 h2 h5 hf1 hf2 hd hcall
    rw [exec_call _ _ _ _ _ _ _ _ a p t false detail raw h1 h2 h5 hf1 hf2 hd hcall]
    exact ⟨rfl, rfl, rfl⟩

/-- Witness for C8: Scenario D — an HTTP 403 is classified as
`(false, "NapCat 鉴权失败(HTTP 403)", none)` and a "leave" request whose
caller reports that failure comes back success=false, executed=false. -/
theorem claim_C8_witness :
    interpret_response (.http 403 .notJson) "u" =
      (false, "NapCat 鉴权失败(HTTP 403)", none) ∧
    (execute_guard_action "leave" "a" ⟨true, some "123", none⟩ false "longreason" "s"
        { samplePolicy with default_dry_run := false } authFailCaller).success = false ∧
    (execute_guard_action "leave" "a" ⟨true, some "123", none⟩ false "longreason" "s"
        { samplePolicy with default_dry_run := false } authFailCaller).executed = false := by
  have h := claim_C8 403 .notJson "u" "leave" "a" ⟨true, some "123", none⟩ false
    "longreason" "s" { samplePolicy with default_dry_run := false } authFailCaller
    "set_group_leave" (.leaveGroup "123" false) "123" "NapCat 鉴权失败(HTTP 403)" none
  obtain ⟨hs, he, _⟩ := h.2 (Or.inl (by decide)) (by decide) (by decide) (by decide)
    (by decide) (by decide) (by decide)
  exact ⟨h.1 (Or.inr rfl), hs, he⟩

/-- C9: a 2xx response whose JSON object carries the literal `status="ok"` is
classified `(true, "ok", rawObject)`; an evaluator run whose caller reports
success returns success=true, executed=true, dryRun=false; and `executed=true`
arises only on that path — it forces a non-dry-run effective flag and a
caller invocation on the resolved branch that returned ok. -/
theorem claim_C9 (status : Nat) (retc msg word : Option String) (url : String)
    (action_type actor_user_id : String) (context : GuardContext) (force : Bool)
    (reason source : String) (policy : GuardPolicy) (caller : NapcatCaller)
    (a : String) (p : NapcatPayload) (t : String) (detail : String)
    (raw : Option NapcatBody) :
    (200 ≤ status → status < 300 →
      interpret_response (.http status (.object (some "ok") retc msg word)) url =
        (true, "ok", some (.object (some "ok") retc msg word))) ∧
    ((pyLower (pyStrip action_type) = "leave" ∨ pyLower (pyStrip action_type) = "delete") →
      resolve_branch (pyLower (pyStrip action_type)) context = some (a, p, t) →
      ¬(resolve_mode policy.mode = "cautious" ∧
        ((normalize_reason reason).length : Int) < policy.min_reason_length) →
      (force && !policy.allow_force) = false →
      (force && !(policy.developer_whitelist.contains actor_user_id)) = false →
      get_effective_dry_run policy.default_dry_run policy.dry_run_override = false →
      caller a p = (true, detail, raw) →
      (execute_guard_action action_type actor_user_id context force reason source policy
          caller).success = true ∧
      (execute_guard_action action_type actor_user_id context force reason source policy
          caller).executed = true ∧
      (execute_guard_action action_type actor_user_id context force reason source policy
          caller).dry_run = false) ∧
    ((execute_guard_action action_type actor_user_id context force reason source policy
        caller).executed = true →
      (execute_guard_action action_type actor_user_id context force reason source policy
          caller).success = true ∧
      (execute_guard_action action_type actor_user_id context force reason source policy
          caller).dry_run = false ∧
      get_effective_dry_run policy.default_dry_run policy.dry_run_override = false ∧
      ∃ a2 p2 t2, resolve_branch (pyLower (pyStrip action_type)) context = some (a2, p2, t2) ∧
        (caller a2 p2).1 = true) := by
  refine ⟨?_, ?_, ?_⟩
  · intro hs1 hs2
    have hne1 : ¬(status = 401 ∨ status = 403) := by omega
    have hne2 : ¬(status < 200 ∨ 300 ≤ status) := by omega
    simp [interpret_response, hne1, hne2]
  · intro h1 h2 h5 hf1 hf2 hd hcall
    rw [exec_call _ _ _ _ _ _ _ _ a p t true detail raw h1 h2 h5 hf1 hf2 hd hcall]
    exact ⟨rfl, rfl, rfl⟩
  · exact exec_executed_true action_type actor_user_id context force reason source policy caller

/-- Witness for C9: Scenario E — `{"status":"ok"}` under HTTP 200 is
classified `(true, "ok", raw)` and the evaluator executes the "leave". -/
theorem claim_C9_witness :
    interpret_response (.http 200 (.object (some "ok") none none none)) "u" =
      (true, "ok", some (.object (some "ok") none none none)) ∧
    (execute_guard_action "leave" "a" ⟨true, some "123", none⟩ false "longreason" "s"
        { samplePolicy with default_dry_run := false } okStatusCaller).success = true ∧
    (execute_guard_action "leave" "a" ⟨true, some "123", none⟩ false "longreason" "s"
        { samplePolicy with default_dry_run := false } okStatusCaller).executed = true ∧
    (execute_guard_action "leave" "a" ⟨true, some "123", none⟩ false "longreason" "s"
        { samplePolicy with default_dry_run := false } okStatusCaller).dry_run = false := by
  have h := claim_C9 200 none none none "u" "leave" "a" ⟨true, some "123", none⟩ false
    "longreason" "s" { samplePolicy with default_dry_run := false } okStatusCaller
    "set_group_leave" (.leaveGroup "123" false) "123" "ok"
    (some (.object (some "ok") none none none))
  obtain ⟨hs, he, hd⟩ := h.2.1 (Or.inl (by decide)) (by decide) (by decide) (by decide)
    (by decide) (by decide) (by decide)
  exact ⟨h.1 (by decide) (by decide), hs, he, hd⟩

/-- C10: rejections at the action-type and cross-context gates carry
`targetId=null`, while rejections at the reason-length gate carry the
resolved target (the group id for "leave", the private user id for "delete")
and rejections at the two force gates carry the resolved target — so
`targetId` tells a caller whether target resolution succeeded. -/
theorem claim_C10 (action_type actor_user_id : String) (context : GuardContext)
    (force : Bool) (reason source : String) (policy : GuardPolicy) (caller : NapcatCaller)
    (gid uid a : String) (p : NapcatPayload) (t : String) :
    (¬(pyLower (pyStrip action_type) = "leave" ∨ pyLower (pyStrip action_type) = "delete") →
      (execute_guard_action action_type actor_user_id context force reason source policy
          caller).target_id = none) ∧
    ((pyLower (pyStrip action_type) = "leave" ∨ pyLower (pyStrip action_type) = "delete") →
      resolve_branch (pyLower (pyStrip action_type)) context = none →
      (execute_guard_action action_type actor_user_id context force reason source policy
          caller).target_id = none) ∧
    (pyLower (pyStrip action_type) = "leave" → context.is_group = true →
      context.group_id = some gid → gid ≠ "" →
      resolve_mode policy.mode = "cautious" →
      ((normalize_reason reason).length : Int) < policy.min_reason_length →
      (execute_guard_action action_type actor_user_id context force reason source policy
          caller).success = false ∧
      (execute_guard_action action_type actor_user_id context force reason source policy
          caller).target_id = some gid) ∧
    (pyLower (pyStrip action_type) = "delete" → context.is_group = false →
      context.private_user_id = some uid → uid ≠ "" →
      resolve_mode policy.mode = "cautious" →
      ((normalize_reason reason).length : Int) < policy.min_reason_length →
      (execute_guard_action action_type actor_user_id context force reason source policy
          caller).success = false ∧
      (execute_guard_action action_type actor_user_id context force reason source policy
          caller).target_id = some uid) ∧
    ((pyLower (pyStrip action_type) = "leave" ∨ pyLower (pyStrip action_type) = "delete") →
      resolve_branch (pyLower (pyStrip action_type)) context = some (a, p, t) →
      ¬(resolve_mode policy.mode = "cautious" ∧
        ((normalize_reason reason).length : Int) < policy.min_reason_length) →
      policy.allow_force = false →
      (execute_guard_action action_type actor_user_id context true reason source policy
          caller).success = false ∧
      (execute_guard_action action_type actor_user_id context true reason source policy
          caller).target_id = some t) ∧
    ((pyLower (pyStrip action_type) = "leave" ∨ pyLower (pyStrip action_type) = "delete") →
      resolve_branch (pyLower (pyStrip action_type)) context = some (a, p, t) →
      ¬(resolve_mode policy.mode = "cautious" ∧
        ((normalize_reason reason).length : Int) < policy.min_reason_length) →
      policy.allow_force = true → actor_user_id ∉ policy.developer_whitelist →
      (execute_guard_action action_type actor_user_id context true reason source policy
          caller).success = false ∧
      (execute_guard_action action_type actor_user_id context true reason source policy
          caller).target_id = some t) := by
  refine ⟨?_, ?_, ?_, ?_, ?_, ?_⟩
  · intro h
    rw [exec_invalid_action _ _ _ _ _ _ _ _ h]
  · intro h1 h2
    rw [exec_ctx_reject _ _ _ _ _ _ _ _ h1 h2]
  · intro hna hg hgid hne hm hlen
    rw [exec_reason_reject _ _ _ _ _ _ _ _ "set_group_leave" (.leaveGroup gid false) gid
      (Or.inl hna) (by rw [hna]; exact resolve_branch_leave_some _ _ hg hgid hne) hm hlen]
    exact ⟨rfl, rfl⟩
  · intro hna hg huid hne hm hlen
    rw [exec_reason_reject _ _ _ _ _ _ _ _ "delete_friend" (.deleteFriend uid) uid
      (Or.inr hna) (by rw [hna]; exact resolve_branch_delete_some _ _ hg huid hne) hm hlen]
    exact ⟨rfl, rfl⟩
  · intro h1 h2 h5 hal
    rw [exec_force_disabled _ _ _ _ _ _ _ _ _ _ h1 h2 h5 hal]
    exact ⟨rfl, rfl⟩
  · intro h1 h2 h5 hal hwl
    rw [exec_force_not_whitelisted _ _ _ _ _ _ _ _ _ _ h1 h2 h5 hal hwl]
    exact ⟨rfl, rfl⟩

/-- Witness for C10: a cautious-mode "delete" with empty reason is refused
but carries the resolved target "u1", while an unsupported action carries no
target. -/
theorem claim_C10_witness :
    (execute_guard_action "delete" "a" ⟨false, none, some "u1"⟩ false "" "cmd"
        cautiousPolicy sampleCaller).target_id = some "u1" ∧
    (execute_guard_action "noop" "a" ⟨false, none, some "u1"⟩ false "" "cmd"
        cautiousPolicy sampleCaller).target_id = none := by
  have h := claim_C10 "delete" "a" ⟨false, none, some "u1"⟩ false "" "cmd"
    cautiousPolicy sampleCaller "g" "u1" "delete_friend" (.deleteFriend "u1") "u1"
  have h2 := claim_C10 "noop" "a" ⟨false, none, some "u1"⟩ false "" "cmd"
    cautiousPolicy sampleCaller "g" "u1" "delete_friend" (.deleteFriend "u1") "u1"
  exact ⟨(h.2.2.2.1 (by decide) rfl rfl (by decide) (by decide) (by decide)).2,
    h2.1 (by decide)⟩

end Guard
